import Mathlib

/-!
Verification development for the anki-agent Router-Verify-Dispatch pipeline.

The definitions below are a shallow embedding of the repository code:

* src/anki_agent/model.py   : the card schema (pydantic models)
* src/anki_agent/anki.py    : the AnkiConnect client (invoke, ensure_deck,
  add_flashcard and the per-variant renderers, add_basic_note)
* src/anki_agent/agent.py   : the guarded router tool closures and the
  add_word entry points of AnkiAgent
* src/anki_agent/orchestrator.py : the unguarded router tool closures and
  the add_word_async entry point of AnkiAgentOrchestrator
* src/anki_agent/verifying_agent.py : the bounded verification retry loop
* agent.py (repository root, legacy first iteration) : the tool that calls
  ensure_deck before add_basic_note

External LLM capabilities (the controller model, the five generator
sub-agents, the verifier model) are modelled as oracle functions supplied
as parameters; the HTTP backend is modelled as an oracle from requests to
parsed responses.  Machine behaviour of the repository code itself is
translated statement by statement.
-/

/-- Card schema from model.py.  NounCard: pydantic model with all plain
string fields; the article field is Literal en or ett in the source, kept
as a plain string here since no claim depends on the enumeration. -/
structure NounCard where
  translation : String
  article : String
  plural : String
  definite_sg : String
  definite_pl : String
  sample : String
deriving Repr, DecidableEq

/-- AdjCard from model.py: comparative and superlative are optional
(str or None, defaulting to None). -/
structure AdjCard where
  translation : String
  positive : String
  comparative : Option String
  superlative : Option String
  sample : String
deriving Repr, DecidableEq

/-- VerbCard from model.py: five forms, four sample phrases (no sample for
the infinitive form). -/
structure VerbCard where
  translation : String
  infinitive : String
  present : String
  past : String
  supine : String
  imperative : String
  sample_present : String
  sample_past : String
  sample_supine : String
  sample_imperative : String
deriving Repr, DecidableEq

/-- PhraseCard from model.py: pattern is optional. -/
structure PhraseCard where
  text_sv : String
  translation : String
  pattern : Option String
  sample : String
deriving Repr, DecidableEq

/-- FallbackCard from model.py: translation, sample and notes are all
optional. -/
structure FallbackCard where
  source : String
  translation : Option String
  sample : Option String
  notes : Option String
deriving Repr, DecidableEq

/-- FlashcardType from model.py: the union
NounCard or AdjCard or VerbCard or FallbackCard or PhraseCard. -/
inductive FlashcardType where
  | noun (c : NounCard)
  | adj (c : AdjCard)
  | verb (c : VerbCard)
  | phrase (c : PhraseCard)
  | fallback (c : FallbackCard)
deriving Repr, DecidableEq

/-- RouterFailure from model.py (defined alongside the cards; carries the
explanation text). -/
structure RouterFailure where
  explanation : String
deriving Repr, DecidableEq

/-- Python truthiness of an optional string field, as used by the
renderers in anki.py: None is falsy, the empty string is falsy, any other
string is truthy. -/
def truthy : Option String → Bool
  | none => false
  | some s => !s.isEmpty

/-- The note payload built by add_basic_note in anki.py: deckName,
modelName Basic, Front and Back fields, duplicate options scoped to the
deck, and the tag list. -/
structure NotePayload where
  deckName : String
  modelName : String
  front : String
  back : String
  allowDuplicate : Bool
  duplicateScope : String
  dupScopeDeckName : String
  checkChildren : Bool
  checkAllModels : Bool
  tags : List String
deriving Repr, DecidableEq

/-- One AnkiConnect request issued through invoke in anki.py.  The claims
only exercise the createDeck and addNote actions. -/
inductive AnkiAction where
  | createDeck (deck : String)
  | addNote (note : NotePayload)
deriving Repr, DecidableEq

/-- What the AnkiConnect HTTP exchange can yield, as discriminated by
invoke in anki.py: a transport level failure (OSError, URLError,
HTTPError, ConnectionError, TimeoutError), a JSON decoding failure, a
parsed object missing the error or result key, or a full envelope with an
error field (None or a message) and a result value. -/
inductive BackendResponse where
  | transportError
  | invalidJson
  | missingKeys
  | envelope (error : Option String) (result : Int)
deriving Repr, DecidableEq

/-- ANKI_CONNECT_URL constant from anki.py. -/
def ANKI_CONNECT_URL : String := "http://127.0.0.1:8765"

/-- DUPLICATE_NOTE sentinel from anki.py: special return for duplicate
note attempts. -/
def DUPLICATE_NOTE : Int := -2

/-- invoke from anki.py, as a function of the parsed exchange outcome.
Every failure path raises RuntimeError with the shown message; success
returns the result field.  Except.error models the raised RuntimeError. -/
def invokeResp : BackendResponse → Except String Int
  | .transportError =>
      .error ("Cannot connect to AnkiConnect at " ++ ANKI_CONNECT_URL ++
        ". Is Anki running and AnkiConnect enabled?")
  | .invalidJson => .error "Invalid JSON response from AnkiConnect"
  | .missingKeys => .error "Invalid AnkiConnect response"
  | .envelope (some e) _ => .error e
  | .envelope none r => .ok r

/-- A backend oracle: the parsed response the AnkiConnect server gives to
each request. -/
def Backend : Type := AnkiAction → BackendResponse

/-- ensure_deck from anki.py: invoke createDeck with the deck name.  The
pair result is the invoke outcome together with the trace of issued
requests. -/
def ensure_deck (backend : Backend) (deck_name : String) :
    Except String Int × List AnkiAction :=
  let a := AnkiAction.createDeck deck_name
  (invokeResp (backend a), [a])

/-- Occurrence of a character list as a contiguous infix of another,
modelling the Python substring membership test. -/
def occursIn (needle : List Char) : List Char → Bool
  | [] => needle.isEmpty
  | c :: t => List.isPrefixOf needle (c :: t) || occursIn needle t

/-- The duplicate test from add_basic_note in anki.py: the string
duplicate occurs case insensitively inside the error message. -/
def hasDuplicate (msg : String) : Bool :=
  occursIn "duplicate".toList msg.toLower.toList

/-- The note dict built by add_basic_note in anki.py. -/
def basicNote (deck_name front back : String) (tags : List String) :
    NotePayload :=
  { deckName := deck_name
    modelName := "Basic"
    front := front
    back := back
    allowDuplicate := false
    duplicateScope := "deck"
    dupScopeDeckName := deck_name
    checkChildren := false
    checkAllModels := false
    tags := tags }

/-- add_basic_note from anki.py: submit the note through invoke; on
success return the note id; on a RuntimeError whose message contains
duplicate (case insensitive) return DUPLICATE_NOTE; on any other
RuntimeError return -1.  The second component is the trace of issued
requests. -/
def add_basic_note (backend : Backend) (deck_name front back : String)
    (tags : List String) : Int × List AnkiAction :=
  let note := basicNote deck_name front back tags
  let a := AnkiAction.addNote note
  match invokeResp (backend a) with
  | .ok id => (id, [a])
  | .error msg =>
      if hasDuplicate msg then (DUPLICATE_NOTE, [a]) else (-1, [a])

/-- add_noun_flashcard from anki.py. -/
def add_noun_flashcard (backend : Backend) (deck_name source_word : String)
    (data : NounCard) (tags : List String) : Int × List AnkiAction :=
  let front := source_word
  let back :=
    "Translation: " ++ data.translation ++ "\n" ++
    "Article: " ++ data.article ++ "\n" ++
    "Plural: " ++ data.plural ++ "\n" ++
    "Definite: " ++ data.definite_sg ++ " (sg), " ++ data.definite_pl ++ " (pl)\n" ++
    "Sample: " ++ data.sample
  add_basic_note backend deck_name front back (tags ++ ["ai", "noun"])

/-- The lines list built by add_adj_flashcard in anki.py, with the
optional comparative and superlative lines appended only when the field
is truthy. -/
def add_adj_lines (data : AdjCard) : List String :=
  ["Translation: " ++ data.translation,
   "Positive: " ++ data.positive]
  ++ (if truthy data.comparative then
        ["Comparative: " ++ data.comparative.getD ""] else [])
  ++ (if truthy data.superlative then
        ["Superlative: " ++ data.superlative.getD ""] else [])
  ++ ["Sample: " ++ data.sample]

/-- add_adj_flashcard from anki.py. -/
def add_adj_flashcard (backend : Backend) (deck_name source_word : String)
    (data : AdjCard) (tags : List String) : Int × List AnkiAction :=
  add_basic_note backend deck_name source_word
    (String.intercalate "\n" (add_adj_lines data))
    (tags ++ ["ai", "adjective"])

/-- The back text built by add_verb_flashcard in anki.py: translation,
then the five forms, with an em dash joined sample phrase after the
present, past, supine and imperative forms and no sample after the
infinitive form. -/
def add_verb_back (data : VerbCard) : String :=
  "Translation: " ++ data.translation ++ "\n" ++
  "Forms:\n" ++
  "- Infinitive: " ++ data.infinitive ++ "\n" ++
  "- Present: " ++ data.present ++ " — " ++ data.sample_present ++ "\n" ++
  "- Past: " ++ data.past ++ " — " ++ data.sample_past ++ "\n" ++
  "- Supine: " ++ data.supine ++ " — " ++ data.sample_supine ++ "\n" ++
  "- Imperative: " ++ data.imperative ++ " — " ++ data.sample_imperative

/-- add_verb_flashcard from anki.py: the front appends a verb marker to
the source word. -/
def add_verb_flashcard (backend : Backend) (deck_name source_word : String)
    (data : VerbCard) (tags : List String) : Int × List AnkiAction :=
  add_basic_note backend deck_name (source_word ++ " (verb)")
    (add_verb_back data) (tags ++ ["ai", "verb"])

/-- The lines list built by add_phrase_flashcard in anki.py. -/
def add_phrase_lines (data : PhraseCard) : List String :=
  ["Phrase: " ++ data.text_sv,
   "Translation: " ++ data.translation]
  ++ (if truthy data.pattern then
        ["Pattern: " ++ data.pattern.getD ""] else [])
  ++ ["Sample: " ++ data.sample]

/-- add_phrase_flashcard from anki.py. -/
def add_phrase_flashcard (backend : Backend) (deck_name source_word : String)
    (data : PhraseCard) (tags : List String) : Int × List AnkiAction :=
  add_basic_note backend deck_name source_word
    (String.intercalate "\n" (add_phrase_lines data))
    (tags ++ ["ai", "phrase"])

/-- The lines list built by add_fallback_flashcard in anki.py: the Source
line always, then Translation, Sample and Notes lines only when the
corresponding optional field is truthy. -/
def add_fallback_lines (data : FallbackCard) : List String :=
  ["Source: " ++ data.source]
  ++ (if truthy data.translation then
        ["Translation: " ++ data.translation.getD ""] else [])
  ++ (if truthy data.sample then
        ["Sample: " ++ data.sample.getD ""] else [])
  ++ (if truthy data.notes then
        ["Notes: " ++ data.notes.getD ""] else [])

/-- add_fallback_flashcard from anki.py. -/
def add_fallback_flashcard (backend : Backend) (deck_name source_word : String)
    (data : FallbackCard) (tags : List String) : Int × List AnkiAction :=
  add_basic_note backend deck_name source_word
    (String.intercalate "\n" (add_fallback_lines data))
    (tags ++ ["ai", "fallback"])

/-- add_flashcard from anki.py: dispatch on the card variant. -/
def add_flashcard (backend : Backend) (deck_name source_word : String)
    (data : FlashcardType) (tags : List String) : Int × List AnkiAction :=
  match data with
  | .noun c => add_noun_flashcard backend deck_name source_word c tags
  | .adj c => add_adj_flashcard backend deck_name source_word c tags
  | .verb c => add_verb_flashcard backend deck_name source_word c tags
  | .phrase c => add_phrase_flashcard backend deck_name source_word c tags
  | .fallback c => add_fallback_flashcard backend deck_name source_word c tags

/-- Modelled from the spec: the root level anki module imported by the
legacy first iteration tool is not under src, so its ensure_deck and
add_basic_note are taken to behave as the identically named functions of
src/anki_agent/anki.py, matching the spec description of the card store
client.  The tool itself (agent.py at the repository root, lines 36 to
40) calls ensure_deck on the deck and then add_basic_note with Front
equal to the word, Back equal to the translation and the single tag ai;
the trace concatenates the requests of both calls in order. -/
def legacy_add_flashcard_tool (backend : Backend)
    (deck word translation : String) : Int × List AnkiAction :=
  let e := ensure_deck backend deck
  let n := add_basic_note backend deck word translation ["ai"]
  (n.1, e.2 ++ n.2)

/-- The lexical category chosen by the classification process when it
invokes one of the five generator tool closures. -/
inductive ToolKind where
  | noun
  | adj
  | verb
  | phrase
  | fallback
deriving Repr, DecidableEq

/-- The value a generator tool closure hands back to the controller:
either the typed card produced by the generator sub-agent, or the string
sentinel returned when a guard suppresses the call. -/
inductive ToolResult where
  | card (c : FlashcardType)
  | ignored (sentinel : String)
deriving Repr, DecidableEq

/-- A generator oracle: the card the category sub-agent produces for a
given kind and source text (the opaque LLM capability). -/
def GenOracle : Type := ToolKind → String → FlashcardType

/-- One guarded tool invocation from agent.py (make_noun_card and its four
siblings, lines 113 to 227): when the tool_called flag of the AnkiAgent
instance is already set, the closure returns the string
duplicate_tool_call_ignored without running any sub-agent; otherwise it
sets the flag and returns the sub-agent card.  The returned pair is the
tool result and the updated flag. -/
def guardedToolCall (gen : GenOracle) (tool_called : Bool)
    (kind : ToolKind) (source : String) : ToolResult × Bool :=
  if tool_called then (.ignored "duplicate_tool_call_ignored", tool_called)
  else (.card (gen kind source), true)

/-- The sequence of guarded tool invocations issued by the classification
process within one AnkiAgent routing attempt, threading the tool_called
flag through the closures. -/
def runAttemptCalls (gen : GenOracle) (tool_called : Bool) :
    List (ToolKind × String) → List ToolResult × Bool
  | [] => ([], tool_called)
  | (k, s) :: rest =>
      let r := guardedToolCall gen tool_called k s
      let rs := runAttemptCalls gen r.2 rest
      (r.1 :: rs.1, rs.2)

/-- One tool invocation from orchestrator.py (make_noun_card and its four
siblings, lines 119 to 211): these closures carry no tool_called guard
and unconditionally run the sub-agent and return its card. -/
def orchToolCall (gen : GenOracle) (kind : ToolKind) (source : String) :
    ToolResult :=
  .card (gen kind source)

/-- The sequence of tool invocations issued within one
AnkiAgentOrchestrator routing attempt. -/
def orchRunAttemptCalls (gen : GenOracle) :
    List (ToolKind × String) → List ToolResult
  | [] => []
  | (k, s) :: rest => orchToolCall gen k s :: orchRunAttemptCalls gen rest

/-- Number of executed generator cards in a list of tool results. -/
def cardCount : List ToolResult → Nat
  | [] => 0
  | .card _ :: rest => cardCount rest + 1
  | .ignored _ :: rest => cardCount rest

/-- The guard assignment at the start of AnkiAgent.add_word_async (line
249) and AnkiAgent.add_word (line 280): the tool_called flag is set to
False no matter what value a previous request left in it. -/
def add_word_guard_reset (_prev : Bool) : Bool := false

/-- The guarded tool invocations of one add_word request of AnkiAgent:
the flag left by any previous request is overwritten with False before
the controller runs. -/
def add_word_toolRuns (gen : GenOracle) (prevGuard : Bool)
    (calls : List (ToolKind × String)) : List ToolResult × Bool :=
  runAttemptCalls gen (add_word_guard_reset prevGuard) calls

/-- VerificationOutput from model level code used by verifying_agent.py:
approved flag, uncertain flag and the reason text. -/
structure VerificationOutput where
  approved : Bool
  uncertain : Bool
  reason : String
deriving Repr, DecidableEq

/-- What one verifier call yields inside VerifyingAgent.run: either an
output that is a VerificationOutput instance, or some other output value
(carried as its display text), which the loop turns into a raised
exception. -/
inductive VerifierResult where
  | verdict (v : VerificationOutput)
  | invalid (shown : String)
deriving Repr, DecidableEq

/-- The output of one router attempt inside the verified pipeline: a
typed card or a RouterFailure (both appear in the output union of the
controller agent in orchestrator.py). -/
inductive RouterOut where
  | card (c : FlashcardType)
  | failure (f : RouterFailure)
deriving Repr, DecidableEq

/-- A router oracle: the output of the controller agent run at a given
attempt index for a given message (the opaque LLM capability, allowed to
differ between attempts). -/
def AgentOracle : Type := Nat → String → RouterOut

/-- A verifier oracle: the output of the verifier agent run at a given
attempt index for a given serialized card description. -/
def VerifierOracle : Type := Nat → String → VerifierResult

/-- The Python class name of the router output, as computed by
type of result.output dunder name in verifying_agent.py line 45. -/
def routerOutClassName : RouterOut → String
  | .card (.noun _) => "NounCard"
  | .card (.adj _) => "AdjCard"
  | .card (.verb _) => "VerbCard"
  | .card (.phrase _) => "PhraseCard"
  | .card (.fallback _) => "FallbackCard"
  | .failure _ => "RouterFailure"

/-- The serialized card description handed to the verifier
(verifying_agent.py line 46): class name, a pipe, then the str dump of
the output object.  The pydantic str dump itself is opaque and supplied
as the strDump oracle. -/
def serializeOut (strDump : RouterOut → String) (out : RouterOut) : String :=
  routerOutClassName out ++ " | " ++ strDump out

/-- The result of VerifyingAgent.run: the returned attempt output together
with the number of router attempts made, the retry exhaustion result
whose output was replaced by a RouterFailure, or a raised exception. -/
inductive RunOutcome where
  | returned (out : RouterOut) (attempts : Nat)
  | exhausted (explanation : String) (attempts : Nat)
  | raised (msg : String)
deriving Repr, DecidableEq

/-- The retry loop of VerifyingAgent.run (verifying_agent.py lines 42 to
56), by recursion on the number of remaining attempts.  Each iteration
runs the router oracle on the current message, serializes its output,
runs the verifier oracle; a verdict with approved or uncertain returns
that attempt output at once; a rejection appends the verifier feedback to
the message and continues; a non verdict output raises.  When the
remaining count hits zero the loop has run maxRetries times and the
result output is replaced by the RouterFailure explanation built from
maxRetries. -/
def run_aux (maxRetries : Nat) (agentO : AgentOracle) (verO : VerifierOracle)
    (strDump : RouterOut → String) :
    Nat → Nat → String → RunOutcome
  | 0, done, _ =>
      .exhausted ("Verification failed after " ++ Nat.repr maxRetries ++
        " retries") done
  | remaining + 1, done, message =>
      let out := agentO done message
      match verO done (serializeOut strDump out) with
      | .verdict v =>
          if v.approved || v.uncertain then .returned out (done + 1)
          else
            run_aux maxRetries agentO verO strDump remaining (done + 1)
              (message ++ "\nVerifier feedback: " ++ v.reason)
      | .invalid shown =>
          .raised ("Verification agent returned invalid output -> " ++ shown)

/-- VerifyingAgent.run from verifying_agent.py.  With max_retries equal
to zero the Python for loop body never runs and the final assignment to
result.output raises an UnboundLocalError; the model marks that as a
raised outcome. -/
def VerifyingAgent_run (maxRetries : Nat) (agentO : AgentOracle)
    (verO : VerifierOracle) (strDump : RouterOut → String)
    (message : String) : RunOutcome :=
  match maxRetries with
  | 0 => .raised "UnboundLocalError: result referenced before assignment"
  | m + 1 => run_aux (m + 1) agentO verO strDump (m + 1) 0 message

/-- Rejection test on a verifier oracle answer: a well formed verdict
with approved and uncertain both false. -/
def isRejection : VerifierResult → Bool
  | .verdict v => !v.approved && !v.uncertain
  | .invalid _ => false

/-- Well formedness test on a verifier oracle answer: the output is a
VerificationOutput instance. -/
def isVerdict : VerifierResult → Bool
  | .verdict _ => true
  | .invalid _ => false

/-- The three user visible outcomes logged and surfaced by add_word_async
in orchestrator.py after the verified router run: a created note id (the
backend error value -1 is also logged through this branch), the duplicate
sentinel, or a router failure explanation. -/
inductive AddWordOutcome where
  | noteCreated (id : Int)
  | duplicateNote
  | routerFailure (explanation : String)
deriving Repr, DecidableEq

/-- AnkiAgentOrchestrator.add_word_async (orchestrator.py lines 230 to
261) on top of the verified router run: builds the user message, runs
VerifyingAgent.run, and on a card output posts it through add_flashcard,
distinguishing the DUPLICATE_NOTE return; a RouterFailure output is
reported as a failure.  An exception raised inside VerifyingAgent.run
propagates out unchanged, modelled by Except.error. -/
def add_word_async (maxRetries : Nat) (agentO : AgentOracle)
    (verO : VerifierOracle) (strDump : RouterOut → String)
    (backend : Backend) (word deck target_lang : String) :
    Except String AddWordOutcome :=
  let message := "Word: " ++ word ++ "\nTarget language: " ++ target_lang
  match VerifyingAgent_run maxRetries agentO verO strDump message with
  | .raised msg => .error msg
  | .returned out _ =>
      match out with
      | .card c =>
          let note_id := (add_flashcard backend deck word c []).1
          if note_id = DUPLICATE_NOTE then .ok .duplicateNote
          else .ok (.noteCreated note_id)
      | .failure f => .ok (.routerFailure f.explanation)
  | .exhausted explanation _ => .ok (.routerFailure explanation)

/-- Test for a returned (not raised) add_word outcome. -/
def isOkOutcome : Except String AddWordOutcome → Bool
  | .ok _ => true
  | .error _ => false

/-- Test for a raised outcome of the retry loop. -/
def isRaised : RunOutcome → Bool
  | .raised _ => true
  | _ => false

/-- Discriminator for createDeck requests in a trace. -/
def isCreateDeck : AnkiAction → Bool
  | .createDeck _ => true
  | .addNote _ => false

/-- A rendered back line carries a given field tag when the tag text is a
prefix of the line. -/
def lineTagged (tag l : String) : Bool :=
  List.isPrefixOf tag.toList l.toList

/-- Concrete noun card used by closed witness statements (the hund card
of the end to end scenario in the repository test suite). -/
def exNoun : NounCard :=
  { translation := "dog", article := "en", plural := "hundar",
    definite_sg := "hunden", definite_pl := "hundarna",
    sample := "En hund springer." }

/-- Concrete verb card used by closed witness statements (the ata card of
the repository test suite). -/
def exVerb : VerbCard :=
  { translation := "eat", infinitive := "ata", present := "ater",
    past := "at", supine := "atit", imperative := "at!",
    sample_present := "Jag ater nu.", sample_past := "Jag at igar.",
    sample_supine := "Jag har atit.", sample_imperative := "At!" }

/-- Concrete fallback card with only source and notes set (the URL
scenario of the spec and the test suite). -/
def exUrlFallback : FallbackCard :=
  { source := "http://foo.com", translation := none, sample := none,
    notes := some "non-lexical URL" }

/-- Concrete adjective card with an empty comparative, used by the closed
part of the empty string rendering claim. -/
def exAdjEmptyComp : AdjCard :=
  { translation := "beautiful", positive := "vacker", comparative := some "",
    superlative := none, sample := "En vacker dag." }

/-- Concrete generator oracle for closed statements. -/
def exGen : GenOracle := fun _ _ =>
  .fallback { source := "x", translation := none, sample := none, notes := none }

/-- Concrete backend oracle answering every request with a fresh note id. -/
def exBackendOk : Backend := fun _ => .envelope none 999

/-- Concrete router oracle for closed statements. -/
def exAgentO : AgentOracle := fun _ _ => .card (.noun exNoun)

/-- Concrete verifier oracle that rejects every card. -/
def exRejVerO : VerifierOracle := fun _ _ =>
  .verdict { approved := false, uncertain := false, reason := "too vague" }

/-- Concrete verifier oracle that approves every card. -/
def exPassVerO : VerifierOracle := fun _ _ =>
  .verdict { approved := true, uncertain := false, reason := "ok" }

/-- Concrete verifier oracle whose output is not a VerificationOutput. -/
def exBadVerO : VerifierOracle := fun _ _ => .invalid "foo"

/-- Concrete str dump oracle for closed statements. -/
def exStrDump : RouterOut → String := fun _ => "card dump"

/-- Discriminator for the suppression sentinel among tool results. -/
def isIgnoredResult : ToolResult → Bool
  | .ignored _ => true
  | .card _ => false

/-!
Theorems.  Helper lemmas come first, then one theorem per claim (with a
closed witness or counterexample theorem where the claim needs one).
-/

/-- Helper: if the truncation of tag to the length of pre is not a prefix
of pre, then tag is not a prefix of pre followed by anything. -/
theorem notPrefix_append (tag pre : List Char)
    (h : ¬ tag.take pre.length <+: pre) (s : List Char) : ¬ tag <+: pre ++ s := by
  intro hp
  exact h (by simpa [List.take_left] using hp.take pre.length)

/-- Helper: a line built from a literal head that does not match a tag is
never tagged with it, whatever the appended field text is. -/
theorem lineTagged_append_false (tag pre s : String)
    (h : ¬ (tag.toList.take pre.toList.length <+: pre.toList)) :
    lineTagged tag (pre ++ s) = false := by
  have h2 := notPrefix_append tag.toList pre.toList h s.toList
  unfold lineTagged
  have e : (pre ++ s).toList = pre.toList ++ s.toList := rfl
  rw [e, Bool.eq_false_iff]
  intro hb
  exact h2 (by simpa using hb)

/-- Helper: every branch of add_basic_note issues exactly the one addNote
request for the note payload it builds. -/
theorem add_basic_note_trace (backend : Backend) (deck front back : String)
    (tags : List String) :
    (add_basic_note backend deck front back tags).2 =
      [AnkiAction.addNote (basicNote deck front back tags)] := by
  cases h : invokeResp (backend (AnkiAction.addNote (basicNote deck front back tags))) with
  | ok id => simp [add_basic_note, h]
  | error msg => cases hd : hasDuplicate msg <;> simp [add_basic_note, h, hd]

/-- Claim C5 (confirmed).  Every submission through add_basic_note ends in
exactly one of three outcomes: on a success envelope the returned value is
the backend note id; on a raised backend error whose message contains
duplicate as a case insensitive substring the returned value is the
DUPLICATE_NOTE sentinel; on any other raised error the returned value is
-1, which differs from the duplicate sentinel and from every positive
success identifier. -/
theorem add_basic_note_trichotomy (backend : Backend) (deck front back : String)
    (tags : List String) :
    (∃ id, invokeResp (backend (AnkiAction.addNote (basicNote deck front back tags))) =
        Except.ok id ∧ (add_basic_note backend deck front back tags).1 = id) ∨
    (∃ msg, invokeResp (backend (AnkiAction.addNote (basicNote deck front back tags))) =
        Except.error msg ∧ hasDuplicate msg = true ∧
        (add_basic_note backend deck front back tags).1 = DUPLICATE_NOTE) ∨
    (∃ msg, invokeResp (backend (AnkiAction.addNote (basicNote deck front back tags))) =
        Except.error msg ∧ hasDuplicate msg = false ∧
        (add_basic_note backend deck front back tags).1 = -1 ∧
        (-1 : Int) ≠ DUPLICATE_NOTE ∧ ∀ id : Int, 0 < id → (-1 : Int) ≠ id) := by
  cases h : invokeResp (backend (AnkiAction.addNote (basicNote deck front back tags))) with
  | ok id =>
      left
      exact ⟨id, rfl, by simp [add_basic_note, h]⟩
  | error msg =>
      cases hd : hasDuplicate msg with
      | true =>
          right; left
          exact ⟨msg, rfl, hd, by simp [add_basic_note, h, hd]⟩
      | false =>
          right; right
          refine ⟨msg, rfl, hd, by simp [add_basic_note, h, hd], by decide, ?_⟩
          intro id hid
          omega

/-- Claim C6 counterexample (claim as stated is false).  On a concrete
verb card the rendered back shows the infinitive form with no em dash
joined sample phrase: the infinitive line is exactly the form alone, and
the text of an em dash joined infinitive sample occurs nowhere in the
back, although the claim asserts that each of the five forms is followed
by its own em dash joined sample phrase. -/
theorem verb_back_infinitive_without_sample :
    add_verb_back exVerb =
      "Translation: eat\nForms:\n- Infinitive: ata\n- Present: ater — Jag ater nu.\n- Past: at — Jag at igar.\n- Supine: atit — Jag har atit.\n- Imperative: at! — At!"
    ∧ occursIn "- Infinitive: ata — ".toList (add_verb_back exVerb).toList = false := by
  constructor
  · rfl
  · decide

/-- Claim C6 amended (proved).  For every verb card the submitted note has
front source plus a verb marker, a back that lists the translation, then
the infinitive form with no sample, then the present, past, supine and
imperative forms each followed by its own em dash joined sample phrase,
and tags containing ai and verb. -/
theorem verb_rendering (backend : Backend) (deck source : String) (d : VerbCard)
    (tags : List String) :
    (add_verb_flashcard backend deck source d tags).2 =
      [AnkiAction.addNote (basicNote deck (source ++ " (verb)")
        ("Translation: " ++ d.translation ++ "\n" ++ "Forms:\n" ++
         "- Infinitive: " ++ d.infinitive ++ "\n" ++
         "- Present: " ++ d.present ++ " — " ++ d.sample_present ++ "\n" ++
         "- Past: " ++ d.past ++ " — " ++ d.sample_past ++ "\n" ++
         "- Supine: " ++ d.supine ++ " — " ++ d.sample_supine ++ "\n" ++
         "- Imperative: " ++ d.imperative ++ " — " ++ d.sample_imperative)
        (tags ++ ["ai", "verb"]))]
    ∧ "ai" ∈ tags ++ ["ai", "verb"] ∧ "verb" ∈ tags ++ ["ai", "verb"] :=
  ⟨add_basic_note_trace backend deck (source ++ " (verb)") (add_verb_back d)
    (tags ++ ["ai", "verb"]), by simp, by simp⟩

/-- Claim C7 (confirmed).  For every fallback card the submitted note has
front equal to the source word argument and back equal to the joined
lines; the first line is always the Source line; when an optional field is
absent (None) no line carries its tag; when an optional field is truthy
its line is present; the concrete card with only source and notes set
renders exactly the two line back of the spec scenario; and the tags
contain ai and fallback. -/
theorem fallback_rendering (backend : Backend) (deck w : String)
    (d : FallbackCard) (tags : List String) :
    (add_fallback_flashcard backend deck w d tags).2 =
      [AnkiAction.addNote (basicNote deck w
        (String.intercalate "\n" (add_fallback_lines d)) (tags ++ ["ai", "fallback"]))]
    ∧ (add_fallback_lines d).head? = some ("Source: " ++ d.source)
    ∧ (d.translation = none →
        (add_fallback_lines d).all (fun l => !lineTagged "Translation:" l) = true)
    ∧ (d.sample = none →
        (add_fallback_lines d).all (fun l => !lineTagged "Sample:" l) = true)
    ∧ (d.notes = none →
        (add_fallback_lines d).all (fun l => !lineTagged "Notes:" l) = true)
    ∧ (truthy d.translation = true →
        ("Translation: " ++ d.translation.getD "") ∈ add_fallback_lines d)
    ∧ (truthy d.sample = true →
        ("Sample: " ++ d.sample.getD "") ∈ add_fallback_lines d)
    ∧ (truthy d.notes = true →
        ("Notes: " ++ d.notes.getD "") ∈ add_fallback_lines d)
    ∧ String.intercalate "\n" (add_fallback_lines exUrlFallback) =
        "Source: http://foo.com\nNotes: non-lexical URL"
    ∧ "ai" ∈ tags ++ ["ai", "fallback"] ∧ "fallback" ∈ tags ++ ["ai", "fallback"] := by
  have hts : ∀ s : String, lineTagged "Translation:" ("Source: " ++ s) = false :=
    fun s => lineTagged_append_false _ _ _ (by decide)
  have htsa : ∀ s : String, lineTagged "Translation:" ("Sample: " ++ s) = false :=
    fun s => lineTagged_append_false _ _ _ (by decide)
  have htn : ∀ s : String, lineTagged "Translation:" ("Notes: " ++ s) = false :=
    fun s => lineTagged_append_false _ _ _ (by decide)
  have hss : ∀ s : String, lineTagged "Sample:" ("Source: " ++ s) = false :=
    fun s => lineTagged_append_false _ _ _ (by decide)
  have hst : ∀ s : String, lineTagged "Sample:" ("Translation: " ++ s) = false :=
    fun s => lineTagged_append_false _ _ _ (by decide)
  have hsn : ∀ s : String, lineTagged "Sample:" ("Notes: " ++ s) = false :=
    fun s => lineTagged_append_false _ _ _ (by decide)
  have hns : ∀ s : String, lineTagged "Notes:" ("Source: " ++ s) = false :=
    fun s => lineTagged_append_false _ _ _ (by decide)
  have hnt : ∀ s : String, lineTagged "Notes:" ("Translation: " ++ s) = false :=
    fun s => lineTagged_append_false _ _ _ (by decide)
  have hnsa : ∀ s : String, lineTagged "Notes:" ("Sample: " ++ s) = false :=
    fun s => lineTagged_append_false _ _ _ (by decide)
  refine ⟨add_basic_note_trace backend deck w
      (String.intercalate "\n" (add_fallback_lines d)) (tags ++ ["ai", "fallback"]),
    by simp [add_fallback_lines], ?_, ?_, ?_, ?_, ?_, ?_, by decide, by simp, by simp⟩
  · intro h
    cases hsam : truthy d.sample <;> cases hnot : truthy d.notes <;>
      simp [add_fallback_lines, h, truthy, hsam, hnot, hts, htsa, htn]
  · intro h
    cases htr : truthy d.translation <;> cases hnot : truthy d.notes <;>
      simp [add_fallback_lines, h, truthy, htr, hnot, hss, hst, hsn]
  · intro h
    cases htr : truthy d.translation <;> cases hsam : truthy d.sample <;>
      simp [add_fallback_lines, h, truthy, htr, hsam, hns, hnt, hnsa]
  · intro h
    simp [add_fallback_lines, h]
  · intro h
    simp [add_fallback_lines, h]
  · intro h
    simp [add_fallback_lines, h]

/-- Claim C8 counterexample (claim as stated is false).  A concrete
approved card submission through add_flashcard issues exactly one addNote
request and no createDeck request at all, although the claim asserts that
an idempotent deck create is issued before the note is written. -/
theorem add_flashcard_without_deck_create :
    (add_flashcard exBackendOk "test" "hund" (FlashcardType.noun exNoun) []).2 =
      [AnkiAction.addNote (basicNote "test" "hund"
        "Translation: dog\nArticle: en\nPlural: hundar\nDefinite: hunden (sg), hundarna (pl)\nSample: En hund springer."
        ["ai", "noun"])]
    ∧ ((add_flashcard exBackendOk "test" "hund" (FlashcardType.noun exNoun) []).2.all
        (fun a => !isCreateDeck a)) = true := by
  constructor
  · rfl
  · rfl

/-- Claim C8 amended (proved).  ensure_deck does issue the idempotent
createDeck request, and the legacy first iteration tool issues createDeck
before its addNote write; but the final pipeline write path add_flashcard
issues no createDeck request for any card variant. -/
theorem deck_create_only_in_legacy_tool (backend : Backend)
    (deck word translation : String) (data : FlashcardType) (tags : List String) :
    (ensure_deck backend deck).2 = [AnkiAction.createDeck deck]
    ∧ (legacy_add_flashcard_tool backend deck word translation).2 =
        [AnkiAction.createDeck deck,
         AnkiAction.addNote (basicNote deck word translation ["ai"])]
    ∧ (add_flashcard backend deck word data tags).2.all (fun a => !isCreateDeck a) = true := by
  refine ⟨rfl, ?_, ?_⟩
  · simp [legacy_add_flashcard_tool, ensure_deck, add_basic_note_trace]
  · cases data <;>
      simp [add_flashcard, add_noun_flashcard, add_adj_flashcard, add_verb_flashcard,
        add_phrase_flashcard, add_fallback_flashcard, add_basic_note_trace, isCreateDeck]

/-- Claim C10 (confirmed).  For the adjective, phrase and fallback
renderers an optional field set to the empty string renders exactly like
an absent field, because presence is tested by Python truthiness; in
particular an adjective card with empty comparative produces a back with
no Comparative line. -/
theorem empty_string_renders_as_absent (backend : Backend) (deck w : String)
    (a : AdjCard) (p : PhraseCard) (f : FallbackCard) (tags : List String) :
    add_adj_flashcard backend deck w { a with comparative := some "" } tags =
      add_adj_flashcard backend deck w { a with comparative := none } tags
    ∧ add_adj_flashcard backend deck w { a with superlative := some "" } tags =
      add_adj_flashcard backend deck w { a with superlative := none } tags
    ∧ add_phrase_flashcard backend deck w { p with pattern := some "" } tags =
      add_phrase_flashcard backend deck w { p with pattern := none } tags
    ∧ add_fallback_flashcard backend deck w { f with translation := some "" } tags =
      add_fallback_flashcard backend deck w { f with translation := none } tags
    ∧ add_fallback_flashcard backend deck w { f with sample := some "" } tags =
      add_fallback_flashcard backend deck w { f with sample := none } tags
    ∧ add_fallback_flashcard backend deck w { f with notes := some "" } tags =
      add_fallback_flashcard backend deck w { f with notes := none } tags
    ∧ (add_adj_lines exAdjEmptyComp).all
        (fun l => !lineTagged "Comparative:" l) = true := by
  refine ⟨rfl, rfl, rfl, rfl, rfl, rfl, by decide⟩

/-- Helper: once the tool_called flag is set, every further guarded tool
invocation in the attempt returns the suppression sentinel and the flag
stays set. -/
theorem runAttemptCalls_guard_set (gen : GenOracle) :
    ∀ calls, runAttemptCalls gen true calls =
      (calls.map (fun _ => ToolResult.ignored "duplicate_tool_call_ignored"), true)
  | [] => rfl
  | (k, s) :: rest => by
      simp [runAttemptCalls, guardedToolCall, runAttemptCalls_guard_set gen rest]

/-- Helper: a list of suppression sentinels contains no executed card. -/
theorem cardCount_ignored_map (l : List (ToolKind × String)) (x : String) :
    cardCount (l.map (fun _ => ToolResult.ignored x)) = 0 := by
  induction l with
  | nil => rfl
  | cons h t ih => simpa [cardCount] using ih

/-- Helper: a replicated suppression sentinel list contains no executed
card. -/
theorem cardCount_ignored_replicate (n : Nat) (x : String) :
    cardCount (List.replicate n (ToolResult.ignored x)) = 0 := by
  induction n with
  | zero => rfl
  | succ m ih => simpa [List.replicate, cardCount] using ih

/-- Claim C1 counterexample (claim as stated is false).  In the
orchestrator pipeline the generator tool closures carry no dispatch
guard: on a concrete attempt that issues two classification decisions,
both generator invocations execute and produce a card, the suppression
sentinel never appears, and two cards result instead of one. -/
theorem orchestrator_second_dispatch_executes :
    orchRunAttemptCalls exGen [(ToolKind.noun, "hund"), (ToolKind.verb, "ata")] =
      [ToolResult.card (exGen ToolKind.noun "hund"),
       ToolResult.card (exGen ToolKind.verb "ata")]
    ∧ cardCount (orchRunAttemptCalls exGen
        [(ToolKind.noun, "hund"), (ToolKind.verb, "ata")]) = 2
    ∧ (orchRunAttemptCalls exGen [(ToolKind.noun, "hund"), (ToolKind.verb, "ata")]).all
        (fun r => !isIgnoredResult r) = true := by
  refine ⟨rfl, rfl, rfl⟩

/-- Claim C1 amended (proved).  In the AnkiAgent pipeline, whose tool
closures check and set the tool_called flag, a routing attempt that
starts with the flag clear executes only its first generator invocation;
every subsequent invocation in the same attempt returns the sentinel
duplicate_tool_call_ignored, and exactly one card is produced in total. -/
theorem anki_agent_at_most_once_dispatch (gen : GenOracle) (k : ToolKind)
    (s : String) (rest : List (ToolKind × String)) :
    (runAttemptCalls gen false ((k, s) :: rest)).1 =
      ToolResult.card (gen k s) ::
        rest.map (fun _ => ToolResult.ignored "duplicate_tool_call_ignored")
    ∧ cardCount ((runAttemptCalls gen false ((k, s) :: rest)).1) = 1 := by
  have h := runAttemptCalls_guard_set gen rest
  constructor
  · simp [runAttemptCalls, guardedToolCall, h]
  · simp [runAttemptCalls, guardedToolCall, h, cardCount, cardCount_ignored_map,
      cardCount_ignored_replicate]

/-- Claim C9 (confirmed).  The tool_called flag is overwritten with False
at the start of every top level add_word request of AnkiAgent, so
whatever flag value a previous request left behind, the first generator
invocation of the new request executes and returns a card; and in the
retried orchestrator pipeline the tool closures consult no guard at all,
so every invocation of every attempt executes regardless of what earlier
attempts dispatched. -/
theorem dispatch_guard_scoping (gen : GenOracle) (prevGuard : Bool) (k : ToolKind)
    (s : String) (rest calls : List (ToolKind × String)) :
    (add_word_toolRuns gen prevGuard ((k, s) :: rest)).1.head? =
      some (ToolResult.card (gen k s))
    ∧ orchRunAttemptCalls gen calls =
        calls.map (fun p => ToolResult.card (gen p.1 p.2)) := by
  constructor
  · simp [add_word_toolRuns, add_word_guard_reset, runAttemptCalls, guardedToolCall]
  · induction calls with
    | nil => rfl
    | cons p t ih =>
        cases p
        simp [orchRunAttemptCalls, orchToolCall, ih]

/-- Helper: when every verifier answer is a rejection, the retry loop
consumes all remaining attempts and ends in the exhaustion result,
counting one attempt per remaining unit. -/
theorem run_aux_all_rejected (maxR : Nat) (agentO : AgentOracle)
    (verO : VerifierOracle) (strDump : RouterOut → String)
    (hrej : ∀ i s, isRejection (verO i s) = true) :
    ∀ (remaining done : Nat) (message : String),
      run_aux maxR agentO verO strDump remaining done message =
        .exhausted ("Verification failed after " ++ Nat.repr maxR ++ " retries")
          (done + remaining) := by
  intro remaining
  induction remaining with
  | zero => intro done message; simp [run_aux]
  | succ r ih =>
      intro done message
      have h := hrej done (serializeOut strDump (agentO done message))
      cases hv : verO done (serializeOut strDump (agentO done message)) with
      | verdict v =>
          rw [hv] at h
          simp [isRejection] at h
          obtain ⟨ha, hu⟩ := h
          rw [show done + (r + 1) = (done + 1) + r by omega]
          simp [run_aux, hv, ha, hu, ih]
      | invalid shown =>
          rw [hv] at h
          simp [isRejection] at h

/-- Claim C2 (confirmed).  For every max_retries N at least one, if every
verification verdict is a rejection then VerifyingAgent.run makes exactly
N router attempts and ends in the exhaustion result whose RouterFailure
explanation is exactly the text Verification failed after N retries. -/
theorem bounded_retry_exhaustion (N : Nat) (agentO : AgentOracle)
    (verO : VerifierOracle) (strDump : RouterOut → String) (message : String)
    (hN : 1 ≤ N) (hrej : ∀ i s, isRejection (verO i s) = true) :
    VerifyingAgent_run N agentO verO strDump message =
      .exhausted ("Verification failed after " ++ Nat.repr N ++ " retries") N := by
  obtain ⟨m, rfl⟩ : ∃ m, N = m + 1 := ⟨N - 1, by omega⟩
  have h := run_aux_all_rejected (m + 1) agentO verO strDump hrej (m + 1) 0 message
  simpa [VerifyingAgent_run] using h

/-- Witness for claim C2: with three allowed retries and a verifier that
rejects everything, the loop makes exactly three attempts and reports the
three retry failure text. -/
theorem bounded_retry_exhaustion_witness :
    VerifyingAgent_run 3 exAgentO exRejVerO exStrDump
      "Word: hund\nTarget language: Swedish" =
      .exhausted "Verification failed after 3 retries" 3 :=
  bounded_retry_exhaustion 3 exAgentO exRejVerO exStrDump
    "Word: hund\nTarget language: Swedish" (by omega) (fun _ _ => rfl)

/-- Claim C3 (confirmed).  At any state of the retry loop (any attempt
index, any accumulated message, any number of remaining retries), if the
verifier answers the current attempt with a verdict whose approved or
uncertain flag is set, the loop returns that attempt output unchanged at
once, whatever the reason text says. -/
theorem verdict_pass_through (maxR remaining done : Nat) (agentO : AgentOracle)
    (verO : VerifierOracle) (strDump : RouterOut → String) (message : String)
    (v : VerificationOutput)
    (hv : verO done (serializeOut strDump (agentO done message)) = .verdict v)
    (hpass : (v.approved || v.uncertain) = true) :
    run_aux maxR agentO verO strDump (remaining + 1) done message =
      .returned (agentO done message) (done + 1) := by
  simp [run_aux, hv, hpass]

/-- Witness for claim C3: at attempt index one with retries left, an
approving verdict makes the loop return that attempt output at once. -/
theorem verdict_pass_through_witness :
    run_aux 3 exAgentO exPassVerO exStrDump 1 1
      "Word: hund\nTarget language: Swedish" =
      .returned (exAgentO 1 "Word: hund\nTarget language: Swedish") 2 :=
  verdict_pass_through 3 0 1 exAgentO exPassVerO exStrDump
    "Word: hund\nTarget language: Swedish"
    { approved := true, uncertain := false, reason := "ok" } rfl rfl

/-- Helper: when every verifier answer is a well formed verdict, the retry
loop never ends in a raised exception. -/
theorem run_aux_not_raised (maxR : Nat) (agentO : AgentOracle)
    (verO : VerifierOracle) (strDump : RouterOut → String)
    (hver : ∀ i s, isVerdict (verO i s) = true) :
    ∀ (remaining done : Nat) (message : String),
      isRaised (run_aux maxR agentO verO strDump remaining done message) = false := by
  intro remaining
  induction remaining with
  | zero => intro done message; simp [run_aux, isRaised]
  | succ r ih =>
      intro done message
      have h := hver done (serializeOut strDump (agentO done message))
      cases hv : verO done (serializeOut strDump (agentO done message)) with
      | verdict v =>
          cases hb : (v.approved || v.uncertain) with
          | true => simp [run_aux, hv, hb, isRaised]
          | false =>
              simp only [run_aux, hv, hb]
              simp only [Bool.false_eq_true, if_false]
              exact ih (done + 1) (message ++ "\nVerifier feedback: " ++ v.reason)
      | invalid shown =>
          rw [hv] at h
          simp [isVerdict] at h

/-- Claim C4 counterexample (claim as stated is false).  With a verifier
capability whose output is not a VerificationOutput, add_word_async ends
in a raised exception that propagates to the caller instead of one of the
three user visible outcomes. -/
theorem add_word_async_raises_on_malformed_verdict :
    add_word_async 3 exAgentO exBadVerO exStrDump exBackendOk
      "hund" "test" "Swedish" =
      Except.error "Verification agent returned invalid output -> foo"
    ∧ isOkOutcome (add_word_async 3 exAgentO exBadVerO exStrDump exBackendOk
        "hund" "test" "Swedish") = false :=
  ⟨rfl, rfl⟩

/-- Claim C4 amended (proved).  Whenever the verification capability
returns only well formed verdicts and max_retries is at least one,
add_word_async returns (instead of raising) one of the three outcome
shapes of AddWordOutcome: a note id (on a non duplicate backend error
this id slot carries the error value -1), the duplicate sentinel, or a
failure explanation. -/
theorem add_word_outcome_surface (N : Nat) (agentO : AgentOracle)
    (verO : VerifierOracle) (strDump : RouterOut → String) (backend : Backend)
    (word deck target_lang : String)
    (hN : 1 ≤ N) (hver : ∀ i s, isVerdict (verO i s) = true) :
    isOkOutcome (add_word_async N agentO verO strDump backend word deck target_lang) =
      true := by
  obtain ⟨m, rfl⟩ : ∃ m, N = m + 1 := ⟨N - 1, by omega⟩
  have h := run_aux_not_raised (m + 1) agentO verO strDump hver (m + 1) 0
    ("Word: " ++ word ++ "\nTarget language: " ++ target_lang)
  cases hr : run_aux (m + 1) agentO verO strDump (m + 1) 0
      ("Word: " ++ word ++ "\nTarget language: " ++ target_lang) with
  | returned out a =>
      cases out with
      | card c =>
          simp only [add_word_async, VerifyingAgent_run, hr]
          split <;> simp [isOkOutcome]
      | failure f =>
          simp [add_word_async, VerifyingAgent_run, hr, isOkOutcome]
  | exhausted e a =>
      simp [add_word_async, VerifyingAgent_run, hr, isOkOutcome]
  | raised msg =>
      rw [hr] at h
      simp [isRaised] at h

/-- Witness for the amended claim C4: a well behaved verifier and a
healthy backend give a returned outcome. -/
theorem add_word_outcome_surface_witness :
    isOkOutcome (add_word_async 3 exAgentO exPassVerO exStrDump exBackendOk
      "hund" "test" "Swedish") = true :=
  add_word_outcome_surface 3 exAgentO exPassVerO exStrDump exBackendOk
    "hund" "test" "Swedish" (by omega) (fun _ _ => rfl)

/-- Witness for claim C7: on the concrete URL card with only source and
notes set, no line is tagged Translation and the joined back is exactly
the two line text of the spec scenario. -/
theorem fallback_rendering_witness :
    (add_fallback_lines exUrlFallback).all (fun l => !lineTagged "Translation:" l) = true
    ∧ String.intercalate "\n" (add_fallback_lines exUrlFallback) =
        "Source: http://foo.com\nNotes: non-lexical URL" := by
  have h := fallback_rendering exBackendOk "test" "http://foo.com" exUrlFallback []
  obtain ⟨-, -, ht, -, -, -, -, -, hc, -, -⟩ := h
  exact ⟨ht rfl, hc⟩
